import Mathlib

/-!
Verification of the fire-detection data pipeline
(`random_forest_model/data_pipeline.py`).

The pipeline's message handler `on_message` is embedded shallowly:
Python numbers become `ℚ`, decoded JSON payloads become the inductive
type `Json`, Python exceptions become `Except PyErr`, and the two
external collaborators — the pre-loaded classifier artifact and the
MySQL sink — become explicit function parameters (`Model`, a sink of
type `SensorLogRecord → Except DbError Unit`).  Every definition below
mirrors the corresponding Python function line by line.
-/

namespace FirePipeline

/-- Python exceptions that the pipeline code can raise per message:
`json.loads` failure, calling `.get` on a non-dict (`AttributeError`),
arithmetic on a non-number (`TypeError`), and division by zero in
`map_value` (`ZeroDivisionError`). -/
inductive PyErr where
  | jsonDecode
  | attributeError
  | typeError
  | zeroDivision
  deriving DecidableEq, Repr

/-- Failures raised by the MySQL connector inside `save_to_database`. -/
inductive DbError where
  | connectivity
  | constraintViolation
  deriving DecidableEq, Repr

/-- A decoded JSON value, the result of `json.loads`.  An `obj` models a
Python dict (keys unique, as produced by the JSON decoder). -/
inductive Json where
  | obj  : List (String × Json) → Json
  | arr  : List Json → Json
  | num  : ℚ → Json
  | str  : String → Json
  | bool : Bool → Json
  | null : Json

/-- Python `dict.get(key, default)` over a decoded JSON object's
key/value list: the stored value when the key is present, the default
otherwise.  Never raises on a dict. -/
def jsonGet : List (String × Json) → String → Json → Json
  | [], _, d => d
  | (k, v) :: rest, key, d => if k = key then v else jsonGet rest key d

/-- Using a decoded JSON value as a Python number.  Numbers are
themselves; Python `bool` is a numeric subtype (`True == 1`,
`False == 0`); strings, lists, objects and `None` raise `TypeError`
when arithmetic is attempted on them. -/
def asNum : Json → Except PyErr ℚ
  | .num q => .ok q
  | .bool b => .ok (if b then 1 else 0)
  | _ => .error .typeError

/-- `map_value` from `data_pipeline.py` line 34:
`(x - in_min) * (out_max - out_min) / (in_max - in_min) + out_min`.
Python raises `ZeroDivisionError` exactly when the divisor
`in_max - in_min` is zero; otherwise the affine map is returned. -/
def map_value (x in_min in_max out_min out_max : ℚ) : Except PyErr ℚ :=
  if in_max - in_min = 0 then .error .zeroDivision
  else .ok ((x - in_min) * (out_max - out_min) / (in_max - in_min) + out_min)

/-- The pre-loaded classifier artifact (`model` in the source), as the
black box the pipeline uses it as: `predict` is the discrete label
(`model.predict(features)[0]`, 0 or 1), `predictProba` is the
positive-class probability (`model.predict_proba(features)[0][1]`).
Both consume the 3-feature vector built by `on_message`. -/
structure Model where
  predict : List ℚ → ℕ
  predictProba : List ℚ → ℚ

/-- The row inserted into `sensor_logs` by `save_to_database`.
`node_id`, `temp_val` and `humidity_val` are stored exactly as
extracted from the payload (any JSON value); `smoke_level`,
`fire_risk` and `alert_status` are computed by the pipeline. -/
structure SensorLogRecord where
  node_id : Json
  temp_val : Json
  humidity_val : Json
  smoke_level : ℚ
  fire_risk : ℚ
  alert_status : String

/-- Status derivation from `data_pipeline.py` lines 94–98: start from
`"SAFE"`, overwrite with `"CRITICAL"` when `prediction == 1`, else with
`"WARNING"` when `fire_risk_percent > 50`. -/
def status_label (prediction : ℕ) (fire_risk_percent : ℚ) : String :=
  if prediction = 1 then "CRITICAL"
  else if fire_risk_percent > 50 then "WARNING"
  else "SAFE"

/-- `save_to_database`: one insert per call against the abstract sink;
a `mysql.connector.Error` is caught inside the function and logged, so
the caller only learns success (`true`) or failure (`false`) and no
exception escapes. -/
def save_to_database (sink : SensorLogRecord → Except DbError Unit)
    (row : SensorLogRecord) : Bool :=
  match sink row with
  | .ok _ => true
  | .error _ => false

/-- The body of the `try:` block of `on_message` (steps A–G of the
source).  The inbound payload is the result of `json.loads`: `none`
models a decode failure, `some data` a decoded value.  On success it
returns the inserted row, the feature vector handed to the classifier,
and the sink outcome. -/
def onMessageBody (model : Model) (sink : SensorLogRecord → Except DbError Unit)
    (payload : Option Json) : Except PyErr (SensorLogRecord × List ℚ × Bool) :=
  match payload with
  | none => .error .jsonDecode
  | some data =>
    match data with
    | .obj kvs =>
      let node_id := jsonGet kvs "node_id" (.str "node_unknown")
      let raw_gas_esp32 := jsonGet kvs "raw_gas" (.num 0)
      let temp_esp32 := jsonGet kvs "temp" (.num 0)
      let hum_esp32 := jsonGet kvs "humidity" (.num 50)
      match asNum raw_gas_esp32 with
      | .error e => .error e
      | .ok rawq =>
        match map_value rawq 0 4095 0 1000 with
        | .error e => .error e
        | .ok calibrated_gas =>
          match asNum temp_esp32 with
          | .error e => .error e
          | .ok tempq =>
            match asNum hum_esp32 with
            | .error e => .error e
            | .ok humq =>
              let features := [tempq, humq, calibrated_gas]
              let prediction := model.predict features
              let fire_risk_percent := model.predictProba features * 100
              let row : SensorLogRecord :=
                ⟨node_id, temp_esp32, hum_esp32, calibrated_gas,
                 fire_risk_percent, status_label prediction fire_risk_percent⟩
              .ok (row, features, save_to_database sink row)
    | _ => .error .attributeError

/-- The message result observable from outside `on_message`: either the
message was fully processed (row built, classifier invoked on the
recorded features, one persistence attempt with the recorded outcome),
or the catch-all `except` at lines 113–114 logged the error. -/
inductive MsgResult where
  | processed (row : SensorLogRecord) (features : List ℚ) (dbOk : Bool)
  | errorLogged (e : PyErr)

/-- `on_message` (the `client`/`userdata` parameters of the Python
callback are unused and dropped): the whole body runs under
`try ... except Exception`, so every error is converted into a logged
outcome and the handler always returns normally. -/
def on_message (model : Model) (sink : SensorLogRecord → Except DbError Unit)
    (payload : Option Json) : MsgResult :=
  match onMessageBody model sink payload with
  | .ok (row, features, dbOk) => .processed row features dbOk
  | .error e => .errorLogged e

/-- The ingestion loop (`client.loop_forever()`): messages are handled
strictly one at a time by `on_message`, which keeps no state across
calls, so a run over a message sequence is the per-message map. -/
def processMessages (model : Model) (sink : SensorLogRecord → Except DbError Unit)
    (payloads : List (Option Json)) : List MsgResult :=
  payloads.map (on_message model sink)

/-- Number of `save_to_database` calls a message caused: the source
calls it exactly once, as the last step of the `try:` body, so a
message reaches it iff it was fully processed. -/
def dbAttempts : MsgResult → ℕ
  | .processed _ _ _ => 1
  | .errorLogged _ => 0

/-- The Risk Policy of the specification, stated over the abstract
`ClassificationOutcome` pair: CRITICAL if `isAlarm`; else WARNING if
`fireRiskPercent > 50`; else SAFE.  Used to compare the source's
`status_label` against the spec's decision table. -/
def classify (isAlarm : Bool) (fireRiskPercent : ℚ) : String :=
  if isAlarm then "CRITICAL"
  else if fireRiskPercent > 50 then "WARNING"
  else "SAFE"

/-- A classifier stub that always answers label 1 with positive-class
probability 1/10, for concrete evaluations. -/
def demoModelAlarm : Model := ⟨fun _ => 1, fun _ => 1 / 10⟩

/-- A classifier stub that always answers label 0 with positive-class
probability 1/5, for concrete evaluations. -/
def demoModelSafe : Model := ⟨fun _ => 0, fun _ => 1 / 5⟩

/-- A sink whose inserts always commit. -/
def sinkOk : SensorLogRecord → Except DbError Unit := fun _ => .ok ()

/-- A sink whose inserts always fail with a connectivity error. -/
def sinkDown : SensorLogRecord → Except DbError Unit := fun _ => .error .connectivity

/-- Whenever the `try:` body of `on_message` succeeds, the row it built
carries the fire risk, the status derived by `status_label` from the
classifier's answers on the recorded feature vector, and the sink
outcome of exactly that row. -/
theorem onMessageBody_ok_shape (model : Model)
    (sink : SensorLogRecord → Except DbError Unit) (payload : Option Json)
    (row : SensorLogRecord) (features : List ℚ) (b : Bool)
    (h : onMessageBody model sink payload = .ok (row, features, b)) :
    row.fire_risk = model.predictProba features * 100 ∧
    row.alert_status =
      status_label (model.predict features) (model.predictProba features * 100) ∧
    b = save_to_database sink row := by
  unfold onMessageBody at h
  cases payload with
  | none => exact Except.noConfusion h
  | some data =>
    cases data with
    | obj kvs =>
      dsimp only at h
      repeat' split at h
      all_goals first
        | exact Except.noConfusion h
        | (injection h with h'; cases h'; exact ⟨rfl, rfl, rfl⟩)
    | arr l => exact Except.noConfusion h
    | num q => exact Except.noConfusion h
    | str s => exact Except.noConfusion h
    | bool b2 => exact Except.noConfusion h
    | null => exact Except.noConfusion h

/-- C1: the Risk Policy is a pure, total, deterministic function of the
pair `(isAlarm, fireRiskPercent)`: the source's `status_label` agrees
everywhere with the spec's decision table `classify` under
`isAlarm = (prediction == 1)`, and the table evaluates to
CRITICAL at `(true, 0)`, WARNING at `(false, 51)`, SAFE at
`(false, 50)` (boundary inclusive on the SAFE side) and WARNING at
`(false, 50.0001)`. -/
theorem risk_policy_decision_table :
    (∀ (prediction : ℕ) (p : ℚ),
        status_label prediction p = classify (prediction == 1) p)
    ∧ classify true 0 = "CRITICAL"
    ∧ classify false 51 = "WARNING"
    ∧ classify false 50 = "SAFE"
    ∧ classify false 50.0001 = "WARNING" := by
  refine ⟨?_, rfl, ?_, ?_, ?_⟩
  · intro prediction p
    by_cases h : prediction = 1 <;> simp [status_label, classify, h]
  · norm_num [classify]
  · norm_num [classify]
  · norm_num [classify]

/-- C2: whenever a message is fully processed and the classifier's
discrete label on the recorded feature vector is 1 (`isAlarm`), the
persisted status is CRITICAL regardless of `fireRiskPercent`; in
particular `status_label` answers CRITICAL on label 1 even when the
risk percentage is below 50. -/
theorem alarm_overrides_probability :
    (∀ (model : Model) (sink : SensorLogRecord → Except DbError Unit)
        (payload : Option Json) (row : SensorLogRecord)
        (features : List ℚ) (dbOk : Bool),
        on_message model sink payload = .processed row features dbOk →
        model.predict features = 1 →
        row.alert_status = "CRITICAL")
    ∧ (∀ p : ℚ, p < 50 → status_label 1 p = "CRITICAL") := by
  constructor
  · intro model sink payload row features dbOk h hpred
    unfold on_message at h
    cases hb : onMessageBody model sink payload with
    | error e => rw [hb] at h; exact MsgResult.noConfusion h
    | ok v =>
      obtain ⟨row', features', b'⟩ := v
      rw [hb] at h
      injection h with h1 h2 h3
      subst h1; subst h2; subst h3
      obtain ⟨-, hstat, -⟩ := onMessageBody_ok_shape model sink payload _ _ _ hb
      rw [hstat, hpred]
      simp [status_label]
  · intro p hp
    simp [status_label]

/-- Witness for C2: the all-defaults message, classified by a stub
model that answers label 1 with probability 1/10 (risk 10 < 50), is
persisted as CRITICAL. -/
theorem alarm_overrides_probability_witness :
    (⟨Json.str "node_unknown", Json.num 0, Json.num 50, 0, 10,
        "CRITICAL"⟩ : SensorLogRecord).alert_status = "CRITICAL"
    ∧ status_label 1 10 = "CRITICAL" :=
  ⟨alarm_overrides_probability.1 demoModelAlarm sinkOk (some (.obj []))
      _ [0, 50, 0] true
      (by norm_num [on_message, onMessageBody, jsonGet, asNum, map_value,
        demoModelAlarm, sinkOk, save_to_database, status_label])
      rfl,
    alarm_overrides_probability.2 10 (by norm_num)⟩

/-- C3: for `inMin ≠ inMax`, `map_value` returns exactly the affine map
`(x - inMin) * (outMax - outMin) / (inMax - inMin) + outMin`, and the
only undefined case is `inMin = inMax`, where it raises
`ZeroDivisionError` instead of producing a value. -/
theorem calibrate_affine_exact (x in_min in_max out_min out_max : ℚ) :
    (in_min ≠ in_max →
      map_value x in_min in_max out_min out_max =
        .ok ((x - in_min) * (out_max - out_min) / (in_max - in_min) + out_min))
    ∧ (in_min = in_max →
      map_value x in_min in_max out_min out_max = .error .zeroDivision) := by
  constructor
  · intro h
    rw [map_value, if_neg fun hc => h (sub_eq_zero.mp hc).symm]
  · intro h
    subst h
    simp [map_value]

/-- Witness for C3: at `(1, 0, 4095, 0, 1000)` the affine value is
returned. -/
theorem calibrate_affine_exact_witness :
    map_value 1 0 4095 0 1000 =
      .ok ((1 - 0) * (1000 - 0) / (4095 - 0) + 0) :=
  (calibrate_affine_exact 1 0 4095 0 1000).1 (by norm_num)

/-- C4: with the fixed constants, calibration is monotone
non-decreasing on `[0, 4095]` and exact at the boundaries:
`map_value 0 0 4095 0 1000 = 0` and `map_value 4095 0 4095 0 1000 =
1000`. -/
theorem calibration_monotone_boundary :
    (∀ a b ya yb : ℚ, 0 ≤ a → a ≤ b → b ≤ 4095 →
        map_value a 0 4095 0 1000 = .ok ya →
        map_value b 0 4095 0 1000 = .ok yb → ya ≤ yb)
    ∧ map_value 0 0 4095 0 1000 = .ok 0
    ∧ map_value 4095 0 4095 0 1000 = .ok 1000 := by
  refine ⟨?_, ?_, ?_⟩
  · intro a b ya yb h0 hab hb ha hbv
    rw [map_value, if_neg (by norm_num)] at ha hbv
    injection ha with ha; injection hbv with hbv
    subst ha; subst hbv
    gcongr
  · simp [map_value]
  · simp [map_value]

/-- Witness for C4: the monotonicity part applied at the two exact
boundary points. -/
theorem calibration_monotone_boundary_witness :
    map_value 0 0 4095 0 1000 = .ok 0
    ∧ map_value 4095 0 4095 0 1000 = .ok 1000
    ∧ (0 : ℚ) ≤ 1000 :=
  ⟨calibration_monotone_boundary.2.1,
    calibration_monotone_boundary.2.2,
    calibration_monotone_boundary.1 0 4095 0 1000 (by norm_num)
      (by norm_num) (by norm_num)
      calibration_monotone_boundary.2.1
      calibration_monotone_boundary.2.2⟩

/-- C5: defaulting of missing fields, for every decoded message
object.  First, extraction of a key absent from the object always
yields the field's default instead of failing (so `node_id` defaults to
`"node_unknown"`, `raw_gas` to 0, `temp` to 0, `humidity` to 50
whenever the respective key is missing).  Second, every object payload
whose extracted field values are numeric — present fields or defaults
alike — runs the full pipeline (calibration, classification on
`[temp, humidity, calibratedGas]`, status derivation, row
construction) and makes exactly one persistence attempt.  Third, in
particular, the object with all fields missing runs the pipeline on
`[0, 50, 0]` with node `"node_unknown"` and one persistence attempt. -/
theorem missing_fields_default_full_pipeline :
    (∀ (kvs : List (String × Json)) (k : String) (d : Json),
        (∀ p ∈ kvs, p.1 ≠ k) → jsonGet kvs k d = d)
    ∧ (∀ (model : Model) (sink : SensorLogRecord → Except DbError Unit)
        (kvs : List (String × Json)) (rawq tempq humq : ℚ),
        asNum (jsonGet kvs "raw_gas" (.num 0)) = .ok rawq →
        asNum (jsonGet kvs "temp" (.num 0)) = .ok tempq →
        asNum (jsonGet kvs "humidity" (.num 50)) = .ok humq →
        on_message model sink (some (.obj kvs)) =
          .processed
            ⟨jsonGet kvs "node_id" (.str "node_unknown"),
              jsonGet kvs "temp" (.num 0),
              jsonGet kvs "humidity" (.num 50),
              (rawq - 0) * (1000 - 0) / (4095 - 0) + 0,
              model.predictProba
                [tempq, humq, (rawq - 0) * (1000 - 0) / (4095 - 0) + 0] * 100,
              status_label
                (model.predict
                  [tempq, humq, (rawq - 0) * (1000 - 0) / (4095 - 0) + 0])
                (model.predictProba
                  [tempq, humq, (rawq - 0) * (1000 - 0) / (4095 - 0) + 0] * 100)⟩
            [tempq, humq, (rawq - 0) * (1000 - 0) / (4095 - 0) + 0]
            (save_to_database sink
              ⟨jsonGet kvs "node_id" (.str "node_unknown"),
                jsonGet kvs "temp" (.num 0),
                jsonGet kvs "humidity" (.num 50),
                (rawq - 0) * (1000 - 0) / (4095 - 0) + 0,
                model.predictProba
                  [tempq, humq, (rawq - 0) * (1000 - 0) / (4095 - 0) + 0] * 100,
                status_label
                  (model.predict
                    [tempq, humq, (rawq - 0) * (1000 - 0) / (4095 - 0) + 0])
                  (model.predictProba
                    [tempq, humq,
                      (rawq - 0) * (1000 - 0) / (4095 - 0) + 0] * 100)⟩)
        ∧ dbAttempts (on_message model sink (some (.obj kvs))) = 1)
    ∧ (∀ (model : Model) (sink : SensorLogRecord → Except DbError Unit),
        on_message model sink (some (.obj [])) =
          .processed
            ⟨.str "node_unknown", .num 0, .num 50, 0,
              model.predictProba [0, 50, 0] * 100,
              status_label (model.predict [0, 50, 0])
                (model.predictProba [0, 50, 0] * 100)⟩
            [0, 50, 0]
            (save_to_database sink
              ⟨.str "node_unknown", .num 0, .num 50, 0,
                model.predictProba [0, 50, 0] * 100,
                status_label (model.predict [0, 50, 0])
                  (model.predictProba [0, 50, 0] * 100)⟩)
        ∧ dbAttempts (on_message model sink (some (.obj []))) = 1) := by
  refine ⟨?_, ?_, ?_⟩
  · intro kvs k d h
    induction kvs with
    | nil => rfl
    | cons p rest ih =>
      obtain ⟨k', v⟩ := p
      rw [jsonGet, if_neg (h ⟨k', v⟩ (List.mem_cons_self _ _))]
      exact ih fun q hq => h q (List.mem_cons_of_mem _ hq)
  · intro model sink kvs rawq tempq humq h1 h2 h3
    have hm : map_value rawq 0 4095 0 1000 =
        .ok ((rawq - 0) * (1000 - 0) / (4095 - 0) + 0) := by
      rw [map_value, if_neg (by norm_num)]
    constructor
    · simp [on_message, onMessageBody, h1, h2, h3, hm]
    · simp [on_message, onMessageBody, h1, h2, h3, hm, dbAttempts]
  · intro model sink
    constructor
    · simp [on_message, onMessageBody, jsonGet, asNum, map_value]
    · simp [on_message, onMessageBody, jsonGet, asNum, map_value, dbAttempts]

/-- Witness for C5: the partially-missing message `{"temp": 25}`.  The
absent `humidity` key extracts to its default 50, and the pipeline
runs in full — `raw_gas` defaulted to 0, `temp` taken from the
message, `humidity` defaulted to 50, node `"node_unknown"` — with
exactly one persistence attempt. -/
theorem missing_fields_default_full_pipeline_witness :
    jsonGet [("temp", Json.num 25)] "humidity" (Json.num 50) = Json.num 50
    ∧ (on_message demoModelSafe sinkOk (some (.obj [("temp", Json.num 25)])) =
        .processed
          ⟨jsonGet [("temp", Json.num 25)] "node_id" (.str "node_unknown"),
            jsonGet [("temp", Json.num 25)] "temp" (.num 0),
            jsonGet [("temp", Json.num 25)] "humidity" (.num 50),
            (0 - 0) * (1000 - 0) / (4095 - 0) + 0,
            demoModelSafe.predictProba
              [25, 50, (0 - 0) * (1000 - 0) / (4095 - 0) + 0] * 100,
            status_label
              (demoModelSafe.predict
                [25, 50, (0 - 0) * (1000 - 0) / (4095 - 0) + 0])
              (demoModelSafe.predictProba
                [25, 50, (0 - 0) * (1000 - 0) / (4095 - 0) + 0] * 100)⟩
          [25, 50, (0 - 0) * (1000 - 0) / (4095 - 0) + 0]
          (save_to_database sinkOk
            ⟨jsonGet [("temp", Json.num 25)] "node_id" (.str "node_unknown"),
              jsonGet [("temp", Json.num 25)] "temp" (.num 0),
              jsonGet [("temp", Json.num 25)] "humidity" (.num 50),
              (0 - 0) * (1000 - 0) / (4095 - 0) + 0,
              demoModelSafe.predictProba
                [25, 50, (0 - 0) * (1000 - 0) / (4095 - 0) + 0] * 100,
              status_label
                (demoModelSafe.predict
                  [25, 50, (0 - 0) * (1000 - 0) / (4095 - 0) + 0])
                (demoModelSafe.predictProba
                  [25, 50, (0 - 0) * (1000 - 0) / (4095 - 0) + 0] * 100)⟩)
      ∧ dbAttempts
          (on_message demoModelSafe sinkOk
            (some (.obj [("temp", Json.num 25)]))) = 1) :=
  ⟨missing_fields_default_full_pipeline.1 [("temp", Json.num 25)]
      "humidity" (Json.num 50) (by simp +decide),
    missing_fields_default_full_pipeline.2.1 demoModelSafe sinkOk
      [("temp", Json.num 25)] 0 25 50 (by simp +decide [jsonGet, asNum])
      (by simp +decide [jsonGet, asNum]) (by simp +decide [jsonGet, asNum])⟩

/-- Counterexample to C6 as stated: for `raw_gas = 2048` the calibrated
gas is exactly `2048 * 1000 / 4095 = 409600/819 ≈ 500.12`, which is
more than 0.05 above the claimed value 500.06, so the gas does not
calibrate to ≈500.06. -/
theorem feature_vector_value_counterexample :
    map_value 2048 0 4095 0 1000 = .ok (409600 / 819)
    ∧ (409600 / 819 : ℚ) - 500.06 > 1 / 20 := by
  constructor
  · rw [map_value, if_neg (by norm_num)]
    norm_num
  · norm_num

/-- C6 (amended): for the message
`{"node_id":"n1","raw_gas":2048,"temp":25,"humidity":40}` the gas
calibrates to exactly `409600/819 ≈ 500.12` (not ≈500.06), and the
classifier receives the 3-feature vector ordered exactly
`[temperature, humidity, calibratedGas] = [25, 40, 409600/819]`. -/
theorem feature_vector_order_amended :
    ∀ (model : Model) (sink : SensorLogRecord → Except DbError Unit),
      on_message model sink
          (some (.obj [("node_id", .str "n1"), ("raw_gas", .num 2048),
            ("temp", .num 25), ("humidity", .num 40)])) =
        .processed
          ⟨.str "n1", .num 25, .num 40, 409600 / 819,
            model.predictProba [25, 40, 409600 / 819] * 100,
            status_label (model.predict [25, 40, 409600 / 819])
              (model.predictProba [25, 40, 409600 / 819] * 100)⟩
          [25, 40, 409600 / 819]
          (save_to_database sink
            ⟨.str "n1", .num 25, .num 40, 409600 / 819,
              model.predictProba [25, 40, 409600 / 819] * 100,
              status_label (model.predict [25, 40, 409600 / 819])
                (model.predictProba [25, 40, 409600 / 819] * 100)⟩)
      ∧ (500.12 : ℚ) < 409600 / 819 ∧ (409600 / 819 : ℚ) < 500.13 := by
  intro model sink
  refine ⟨?_, by norm_num, by norm_num⟩
  simp +decide [on_message, onMessageBody, jsonGet, asNum, map_value]
  norm_num

/-- C9: `map_value` applies no clamping: a raw value below 0
calibrates below 0, a raw value above 4095 calibrates above 1000, and
for any raw value `r` the extrapolated value is passed unchanged to the
classifier as the third feature and persisted as `smoke_level`. -/
theorem no_clamping_extrapolation :
    (∀ r : ℚ, r < 0 → ∀ y, map_value r 0 4095 0 1000 = .ok y → y < 0)
    ∧ (∀ r : ℚ, 4095 < r → ∀ y, map_value r 0 4095 0 1000 = .ok y → 1000 < y)
    ∧ (∀ (model : Model) (sink : SensorLogRecord → Except DbError Unit)
        (r : ℚ),
        on_message model sink (some (.obj [("raw_gas", .num r)])) =
          .processed
            ⟨.str "node_unknown", .num 0, .num 50,
              (r - 0) * (1000 - 0) / (4095 - 0) + 0,
              model.predictProba
                [0, 50, (r - 0) * (1000 - 0) / (4095 - 0) + 0] * 100,
              status_label
                (model.predict
                  [0, 50, (r - 0) * (1000 - 0) / (4095 - 0) + 0])
                (model.predictProba
                  [0, 50, (r - 0) * (1000 - 0) / (4095 - 0) + 0] * 100)⟩
            [0, 50, (r - 0) * (1000 - 0) / (4095 - 0) + 0]
            (save_to_database sink
              ⟨.str "node_unknown", .num 0, .num 50,
                (r - 0) * (1000 - 0) / (4095 - 0) + 0,
                model.predictProba
                  [0, 50, (r - 0) * (1000 - 0) / (4095 - 0) + 0] * 100,
                status_label
                  (model.predict
                    [0, 50, (r - 0) * (1000 - 0) / (4095 - 0) + 0])
                  (model.predictProba
                    [0, 50, (r - 0) * (1000 - 0) / (4095 - 0) + 0] * 100)⟩)) := by
  refine ⟨?_, ?_, ?_⟩
  · intro r hr y hy
    rw [map_value, if_neg (by norm_num)] at hy
    injection hy with hy
    subst hy
    nlinarith
  · intro r hr y hy
    rw [map_value, if_neg (by norm_num)] at hy
    injection hy with hy
    subst hy
    nlinarith
  · intro model sink r
    simp [on_message, onMessageBody, jsonGet, asNum, map_value]

/-- Witness for C9: raw value −1 calibrates to −200/819 < 0 and raw
value 8192 calibrates to 1638400/819 > 1000. -/
theorem no_clamping_extrapolation_witness :
    ((-200 : ℚ) / 819 < 0) ∧ ((1000 : ℚ) < 1638400 / 819) :=
  ⟨no_clamping_extrapolation.1 (-1) (by norm_num) ((-200 : ℚ) / 819)
      (by rw [map_value, if_neg (by norm_num)]; norm_num),
    no_clamping_extrapolation.2.1 8192 (by norm_num) ((1638400 : ℚ) / 819)
      (by rw [map_value, if_neg (by norm_num)]; norm_num)⟩

/-- C7: a failing sink is caught inside `save_to_database` (the caller
sees `false`, no exception), and a message whose persistence attempt
failed leaves the processing of the next message untouched: the loop's
result on `[p₁, p₂]` is the per-message result of each, with `p₂`
handled exactly as it would be on its own. -/
theorem sink_failure_isolated :
    (∀ (sink : SensorLogRecord → Except DbError Unit) (row : SensorLogRecord)
        (e : DbError), sink row = .error e → save_to_database sink row = false)
    ∧ (∀ (model : Model) (sink : SensorLogRecord → Except DbError Unit)
        (p₁ p₂ : Option Json) (row : SensorLogRecord) (features : List ℚ),
        on_message model sink p₁ = .processed row features false →
        processMessages model sink [p₁, p₂] =
          [.processed row features false, on_message model sink p₂]) := by
  constructor
  · intro sink row e h
    simp [save_to_database, h]
  · intro model sink p₁ p₂ row features h
    simp [processMessages, h]

/-- Witness for C7: with a sink that always fails, the all-defaults
message is still fully processed (persistence outcome `false`), and a
second copy of the message is processed identically afterwards. -/
theorem sink_failure_isolated_witness :
    save_to_database sinkDown
        ⟨Json.str "node_unknown", Json.num 0, Json.num 50, 0, 20, "SAFE"⟩ = false
    ∧ processMessages demoModelSafe sinkDown
          [some (.obj []), some (.obj [])] =
        [.processed
            ⟨Json.str "node_unknown", Json.num 0, Json.num 50, 0, 20, "SAFE"⟩
            [0, 50, 0] false,
          on_message demoModelSafe sinkDown (some (.obj []))] :=
  ⟨sink_failure_isolated.1 sinkDown _ .connectivity rfl,
    sink_failure_isolated.2 demoModelSafe sinkDown _ _ _ _
      (by simp +decide [on_message, onMessageBody, jsonGet, asNum, map_value,
            demoModelSafe, sinkDown, save_to_database, status_label]
          norm_num)⟩

/-- C8: a payload that fails to decode yields a logged error for that
message only — the loop's run on the remaining messages is unchanged;
more generally any exception in the body of `on_message` becomes a
logged result (the handler never re-raises), and the loop's result on
any message list is the independent per-message result. -/
theorem malformed_payload_isolated :
    (∀ (model : Model) (sink : SensorLogRecord → Except DbError Unit)
        (ps : List (Option Json)),
        processMessages model sink (none :: ps) =
          .errorLogged .jsonDecode :: processMessages model sink ps)
    ∧ (∀ (model : Model) (sink : SensorLogRecord → Except DbError Unit)
        (p : Option Json) (e : PyErr),
        onMessageBody model sink p = .error e →
        on_message model sink p = .errorLogged e)
    ∧ (∀ (model : Model) (sink : SensorLogRecord → Except DbError Unit)
        (p : Option Json) (ps : List (Option Json)),
        processMessages model sink (p :: ps) =
          on_message model sink p :: processMessages model sink ps) := by
  refine ⟨?_, ?_, ?_⟩
  · intro model sink ps
    simp [processMessages, on_message, onMessageBody]
  · intro model sink p e h
    simp [on_message, h]
  · intro model sink p ps
    simp [processMessages]

/-- Witness for C8: a payload decoding to the bare number 3 raises
`AttributeError` in the body and is logged, not re-raised. -/
theorem malformed_payload_isolated_witness :
    on_message demoModelSafe sinkOk (some (.num 3)) =
      .errorLogged .attributeError :=
  malformed_payload_isolated.2.1 demoModelSafe sinkOk (some (.num 3))
    .attributeError rfl

/-- C10: a syntactically valid payload that is not a JSON object (an
array, number, string, boolean or null) raises `AttributeError` at
field extraction; the catch-all logs it, and no persistence attempt is
made for that message. -/
theorem non_object_payload_dropped :
    ∀ (model : Model) (sink : SensorLogRecord → Except DbError Unit) (j : Json),
      (∀ kvs, j ≠ .obj kvs) →
      on_message model sink (some j) = .errorLogged .attributeError
      ∧ dbAttempts (on_message model sink (some j)) = 0 := by
  intro model sink j hj
  have hbody : onMessageBody model sink (some j) = .error .attributeError := by
    cases j with
    | obj kvs => exact absurd rfl (hj kvs)
    | arr l => rfl
    | num q => rfl
    | str s => rfl
    | bool b => rfl
    | null => rfl
  exact ⟨by simp [on_message, hbody], by simp [on_message, hbody, dbAttempts]⟩

/-- Witness for C10: the empty JSON array is logged as an
`AttributeError` with zero persistence attempts. -/
theorem non_object_payload_dropped_witness :
    on_message demoModelSafe sinkOk (some (.arr [])) =
      .errorLogged .attributeError
    ∧ dbAttempts (on_message demoModelSafe sinkOk (some (.arr []))) = 0 :=
  non_object_payload_dropped demoModelSafe sinkOk (.arr [])
    (fun _ h => Json.noConfusion h)

end FirePipeline
